import Mathlib

/-!
Verification of the `save_load_across_devices` notebook.

The notebook defines a small convolutional network `Net`, saves its parameter
state dictionary with `torch.save`, and reloads it with `torch.load` under
several device-mapping combinations (`map_location`), plus a note on saving a
`DataParallel` wrapper's underlying module.

The notebook's own content (the `Net` topology, the names bound by its import
cell, the save/load cells) is embedded directly from the source.  The PyTorch
framework calls (`torch.save`, `torch.load`, `load_state_dict`, `.to`) are not
part of the repository's sources; they are modelled from the specification's
description of their contracts, and each such definition carries a doc comment
saying so.
-/

namespace SaveLoad

/-- A compute device: the CPU or a specific GPU index (`"cuda:idx"`). -/
inductive Device where
  | cpu : Device
  | cuda : Nat → Device
deriving DecidableEq, Repr

/-- A tensor as the spec's data model describes it: a shape, the numeric
weight values, and the device its storage currently resides on. -/
structure Tensor where
  shape : List Nat
  data : List Int
  device : Device
deriving DecidableEq, Repr

/-- Modelled from the spec: `my_tensor.to(device)` returns a new copy of the
tensor on the requested device when that device is available, and fails with a
"device unavailable" error otherwise (no retry or fallback). -/
def Tensor.to (t : Tensor) (d : Device) : Tensor :=
  { t with device := d }

/-- The parameter state: a mapping from layer name to weight tensor,
represented as an association list in the module's insertion order. -/
abbrev StateDict := List (String × Tensor)

/-- Association-list lookup on a state dict. -/
def lookupSD (sd : StateDict) (k : String) : Option Tensor :=
  match sd with
  | [] => none
  | kv :: rest => if kv.1 = k then some kv.2 else lookupSD rest k

/-- The keys of a state dict, in order. -/
def keysOf (sd : StateDict) : List String := sd.map Prod.fst

/-- The shape of each entry of a state dict, keyed, in order. -/
def shapesOf (sd : StateDict) : List (String × List Nat) :=
  sd.map fun kv => (kv.1, kv.2.shape)

/-- The numeric values of each entry of a state dict, keyed, in order. -/
def valuesOf (sd : StateDict) : List (String × List Int) :=
  sd.map fun kv => (kv.1, kv.2.data)

/-- The device of each entry of a state dict, in order. -/
def devicesOf (sd : StateDict) : List Device :=
  sd.map fun kv => kv.2.device

/-- The device-independent content of a state dict: keys, shapes and values,
everything except the device attribute. -/
def stripDevices (sd : StateDict) : List (String × List Nat × List Int) :=
  sd.map fun kv => (kv.1, kv.2.shape, kv.2.data)

/-- Error kinds surfaced by the framework calls, as the spec names them, plus
the two Python runtime errors the notebook's own code can raise. -/
inductive PyError where
  | fileNotFound : PyError
  | keyMismatch : PyError
  | deviceUnavailable : PyError
  | deviceMismatch : PyError
  | nameError : String → PyError
  | attributeError : String → PyError
deriving DecidableEq, Repr

/-- Whether an `Except` result is a success. -/
def isOk {α : Type} (r : Except PyError α) : Bool :=
  match r with
  | .ok _ => true
  | .error _ => false

/-!
## The network defined by the notebook (cell 5)

```python
class Net(nn.Module):
    def __init__(self):
        super(Net, self).__init__()
        self.conv1 = nn.Conv2d(3, 6, 5)
        self.pool = nn.MaxPool2d(2, 2)
        self.conv2 = nn.Conv2d(6, 16, 5)
        self.fc1 = nn.Linear(16 * 5 * 5, 120)
        self.fc2 = nn.Linear(120, 84)
        self.fc3 = nn.Linear(84, 10)
```

`MaxPool2d` has no parameters; each `Conv2d`/`Linear` contributes a weight
and a bias.  A `Net` instance therefore owns exactly ten parameter tensors.
-/

/-- A `Net` instance: its ten parameter tensors, one field per learnable
parameter of the layers constructed in `Net.__init__` (the pooling layer has
no parameters). -/
structure Net where
  conv1_weight : Tensor
  conv1_bias : Tensor
  conv2_weight : Tensor
  conv2_bias : Tensor
  fc1_weight : Tensor
  fc1_bias : Tensor
  fc2_weight : Tensor
  fc2_bias : Tensor
  fc3_weight : Tensor
  fc3_bias : Tensor
deriving DecidableEq, Repr

/-- The parameter names a `Net` exposes, in `state_dict()` order. -/
def netKeys : List String :=
  ["conv1.weight", "conv1.bias", "conv2.weight", "conv2.bias",
   "fc1.weight", "fc1.bias", "fc2.weight", "fc2.bias",
   "fc3.weight", "fc3.bias"]

/-- The shape of each of `Net`'s parameters, fixed by the layer constructors:
`Conv2d(3, 6, 5)`, `Conv2d(6, 16, 5)`, `Linear(400, 120)`, `Linear(120, 84)`,
`Linear(84, 10)`. -/
def netShapes : List (String × List Nat) :=
  [("conv1.weight", [6, 3, 5, 5]), ("conv1.bias", [6]),
   ("conv2.weight", [16, 6, 5, 5]), ("conv2.bias", [16]),
   ("fc1.weight", [120, 400]), ("fc1.bias", [120]),
   ("fc2.weight", [84, 120]), ("fc2.bias", [84]),
   ("fc3.weight", [10, 84]), ("fc3.bias", [10])]

/-- Constructing a network (`Net()`) initializes each parameter with (random)
values, abstracted here as a function `init` from the parameter name to its
values, on the CPU (the framework's default device for fresh modules). -/
def Net.new (init : String → List Int) : Net :=
  { conv1_weight := ⟨[6, 3, 5, 5], init "conv1.weight", Device.cpu⟩
    conv1_bias := ⟨[6], init "conv1.bias", Device.cpu⟩
    conv2_weight := ⟨[16, 6, 5, 5], init "conv2.weight", Device.cpu⟩
    conv2_bias := ⟨[16], init "conv2.bias", Device.cpu⟩
    fc1_weight := ⟨[120, 400], init "fc1.weight", Device.cpu⟩
    fc1_bias := ⟨[120], init "fc1.bias", Device.cpu⟩
    fc2_weight := ⟨[84, 120], init "fc2.weight", Device.cpu⟩
    fc2_bias := ⟨[84], init "fc2.bias", Device.cpu⟩
    fc3_weight := ⟨[10, 84], init "fc3.weight", Device.cpu⟩
    fc3_bias := ⟨[10], init "fc3.bias", Device.cpu⟩ }

/-- The state dict of a net (`net.state_dict()`): the mapping from parameter
name to parameter tensor, in the module's registration order. -/
def Net.state_dict (n : Net) : StateDict :=
  [("conv1.weight", n.conv1_weight), ("conv1.bias", n.conv1_bias),
   ("conv2.weight", n.conv2_weight), ("conv2.bias", n.conv2_bias),
   ("fc1.weight", n.fc1_weight), ("fc1.bias", n.fc1_bias),
   ("fc2.weight", n.fc2_weight), ("fc2.bias", n.fc2_bias),
   ("fc3.weight", n.fc3_weight), ("fc3.bias", n.fc3_bias)]

/-- All of a net's parameters reside on device `d`. -/
def Net.onDevice (n : Net) (d : Device) : Prop :=
  ∀ kv ∈ n.state_dict, kv.2.device = d

/-- Modelled from the spec: `model.to(device)` binds the whole module to the
target device, moving every parameter tensor there, when the device is
available; otherwise it fails with a "device unavailable" error, with no
retry or fallback.  `avail` is the set of devices present on the machine. -/
def Net.to (n : Net) (d : Device) (avail : List Device) : Except PyError Net :=
  if d ∈ avail then
    .ok { conv1_weight := n.conv1_weight.to d
          conv1_bias := n.conv1_bias.to d
          conv2_weight := n.conv2_weight.to d
          conv2_bias := n.conv2_bias.to d
          fc1_weight := n.fc1_weight.to d
          fc1_bias := n.fc1_bias.to d
          fc2_weight := n.fc2_weight.to d
          fc2_bias := n.fc2_bias.to d
          fc3_weight := n.fc3_weight.to d
          fc3_bias := n.fc3_bias.to d }
  else .error .deviceUnavailable

/-- Modelled from the spec: `my_tensor.to(device)` for input data, with the
same availability check as for modules. -/
def Tensor.toChecked (t : Tensor) (d : Device) (avail : List Device) :
    Except PyError Tensor :=
  if d ∈ avail then .ok (t.to d) else .error .deviceUnavailable

/-- Whether a persisted mapping's key set matches `Net`'s expected parameter
names: every expected name is present and no unexpected name occurs. -/
def keysMatch (sd : StateDict) : Bool :=
  netKeys.all (fun k => (lookupSD sd k).isSome) &&
    sd.all (fun kv => netKeys.contains kv.1)

/-- Copy a loaded tensor into an existing parameter: the values and shape come
from the loaded tensor, while the parameter keeps the device it already
resides on (loading does not move the module). -/
def copyInto (dst : Tensor) (src : Option Tensor) : Tensor :=
  match src with
  | some s => { shape := s.shape, data := s.data, device := dst.device }
  | none => dst

/-- Modelled from the spec: `model.load_state_dict(sd)` reconstructs the
persisted mapping into the model's parameters.  It fails with a "shape/key
mismatch" error when the mapping's keys do not match the model's expected
parameter names; on success each parameter takes the loaded values while
keeping its current device binding (the model does not automatically follow
its parameters to the artifact's device). -/
def Net.load_state_dict (n : Net) (sd : StateDict) : Except PyError Net :=
  if keysMatch sd then
    .ok { conv1_weight := copyInto n.conv1_weight (lookupSD sd "conv1.weight")
          conv1_bias := copyInto n.conv1_bias (lookupSD sd "conv1.bias")
          conv2_weight := copyInto n.conv2_weight (lookupSD sd "conv2.weight")
          conv2_bias := copyInto n.conv2_bias (lookupSD sd "conv2.bias")
          fc1_weight := copyInto n.fc1_weight (lookupSD sd "fc1.weight")
          fc1_bias := copyInto n.fc1_bias (lookupSD sd "fc1.bias")
          fc2_weight := copyInto n.fc2_weight (lookupSD sd "fc2.weight")
          fc2_bias := copyInto n.fc2_bias (lookupSD sd "fc2.bias")
          fc3_weight := copyInto n.fc3_weight (lookupSD sd "fc3.weight")
          fc3_bias := copyInto n.fc3_bias (lookupSD sd "fc3.bias") }
  else .error .keyMismatch

/-!
## The serialization layer (modelled from the spec)

The persisted artifact is the serialized parameter-state mapping; the
filesystem is a mapping from path to artifact.
-/

/-- A persisted artifact: the serialized parameter-state mapping.  Modelled
from the spec: serialization preserves the mapping's keys, shapes and values
exactly (the binary layout is out of scope by construction). -/
abbrev Artifact := StateDict

/-- The filesystem: paths to persisted artifacts, most recent write first. -/
abbrev FS := List (String × Artifact)

/-- Read the artifact most recently written at `path`, if any. -/
def readFS (fs : FS) (path : String) : Option Artifact :=
  match fs with
  | [] => none
  | pa :: rest => if pa.1 = path then some pa.2 else readFS rest path

/-- Modelled from the spec: `torch.save(sd, path)` serializes the parameter
state and writes it to `path`, leaving the in-memory state untouched. -/
def torchSave (fs : FS) (sd : StateDict) (path : String) : FS :=
  (path, sd) :: fs

/-- Modelled from the spec: the device remapping `torch.load` applies.  With
no `map_location` the tensors keep the device they were saved from; with
`map_location = d` every tensor's storage is dynamically remapped to `d`,
without consulting which device the data was saved from. -/
def remap (art : Artifact) (mapLocation : Option Device) : Artifact :=
  match mapLocation with
  | none => art
  | some d => art.map fun kv => (kv.1, { kv.2 with device := d })

/-- Modelled from the spec: `torch.load(path, map_location)` reads the
artifact persisted at `path`, failing if the path does not exist, and applies
the device remapping. -/
def torchLoad (fs : FS) (path : String) (mapLocation : Option Device) :
    Except PyError Artifact :=
  match readFS fs path with
  | none => .error .fileNotFound
  | some art => .ok (remap art mapLocation)

/-- The composite load recipe the notebook demonstrates:
`model.load_state_dict(torch.load(PATH, map_location=device))`.  Any failure
of either call is surfaced directly to the caller, with no local recovery or
retry. -/
def loadInto (fs : FS) (path : String) (mapLocation : Option Device)
    (n : Net) : Except PyError Net :=
  match torchLoad fs path mapLocation with
  | .error e => .error e
  | .ok art => n.load_state_dict art

/-!
## The forward computation (cell 5) and the notebook's global names (cell 3)

Cell 3 of the notebook binds exactly the names `torch`, `nn` and `optim`
(its three statements are `import torch`, `import torch.nn as nn` and
`import torch.optim as optim`; nothing binds `F`).

`Net.forward` begins with `x = self.pool(F.relu(self.conv1(x)))`; Python
resolves the name `F` before evaluating `self.conv1(x)`, so the lookup of `F`
is the first global-name resolution the body performs.
-/

/-- The global names bound by the notebook's import cell (cell 3). -/
def notebookGlobals : List String := ["torch", "nn", "optim"]

/-- Modelled from the spec: applying a parameter-carrying layer to an input.
The framework requires the layer's parameters and its input to reside on the
same device; a mismatch fails with a "device mismatch" error.  On success the
layer produces an output tensor of its output shape on that device (the
numeric convolution/linear arithmetic is out of the spec's scope). -/
def layerApply (w : Tensor) (outShape : List Nat) (x : Tensor) :
    Except PyError Tensor :=
  if w.device = x.device then
    .ok { shape := outShape, data := x.data, device := x.device }
  else .error .deviceMismatch

/-- The forward pass `net.forward(x)` as the notebook defines it, evaluated
under the global environment `globals`: the body's first step resolves `F`
(`torch.nn.functional`), raising a `NameError` when it is unbound; otherwise
the input flows through `conv1`, `pool`, `conv2`, `pool`, a reshape to
`16 * 5 * 5` columns, and `fc1`, `fc2`, `fc3`, each parameter-carrying layer
requiring its parameters and input on the same device. -/
def Net.forward (globals : List String) (n : Net) (x : Tensor) :
    Except PyError Tensor :=
  if globals.contains "F" then do
    let a ← layerApply n.conv1_weight [6, 14, 14] x
    let b ← layerApply n.conv2_weight [16, 5, 5] a
    let bView : Tensor := { shape := [1, 400], data := b.data, device := b.device }
    let c ← layerApply n.fc1_weight [1, 120] bView
    let d ← layerApply n.fc2_weight [1, 84] c
    layerApply n.fc3_weight [1, 10] d
  else .error (.nameError "F")

/-!
## The DataParallel wrapper (cell 13's subject)

`torch.nn.DataParallel` wraps a single module and replicates it across a set
of GPU device ids; the underlying module is reachable as `.module`.
-/

/-- Modelled from the spec: a parallel-replica wrapper over the model — it
runs identical copies of the single underlying module across its device ids
and aggregates results.  Only the underlying module carries the parameter
state. -/
structure DataParallel where
  module : Net
  device_ids : List Nat
deriving DecidableEq, Repr

/-- Cell 13's save recipe: `torch.save(net.module.state_dict(), PATH)` — the
save target is the single underlying module's parameter state, not the
wrapper's. -/
def saveDataParallel (fs : FS) (dp : DataParallel) (path : String) : FS :=
  torchSave fs dp.module.state_dict path

/-!
## The notebook's cell 7 (save on GPU, load on CPU) as a state transformer

```python
PATH = "model.pt"
torch.save(net.state_dict(), PATH)
device = torch.device('cpu')
model = Net()
model.load_state_dict(torch.load(PATH, map_location=device))
```

The cell reads `net`, writes the filesystem, constructs a fresh `model` and
writes only into that fresh instance.
-/

/-- The program state cell 7 touches: the filesystem, the network saved from,
and the freshly loaded model (absent until the cell runs). -/
structure World where
  fs : FS
  net : Net
  model : Option Net
deriving DecidableEq, Repr

/-- Cell 7 of the notebook, run on a world: save `net`'s state dict to
`"model.pt"`, construct a fresh `Net` (with initializer `init`), and load the
artifact into it with `map_location = cpu`.  `net` itself is only read. -/
def runCell7 (w : World) (init : String → List Int) :
    World × Except PyError Unit :=
  let fs2 := torchSave w.fs w.net.state_dict "model.pt"
  match loadInto fs2 "model.pt" (some Device.cpu) (Net.new init) with
  | .ok m => ({ fs := fs2, net := w.net, model := some m }, .ok ())
  | .error e => ({ fs := fs2, net := w.net, model := w.model }, .error e)

/-!
## Helper lemmas about the serialization layer
-/

/-- Remapping with no `map_location` is the identity. -/
theorem remap_none (sd : StateDict) : remap sd none = sd := rfl

/-- Remapping preserves the mapping's keys. -/
theorem keysOf_remap (sd : StateDict) (m : Option Device) :
    keysOf (remap sd m) = keysOf sd := by
  cases m with
  | none => rfl
  | some d =>
    induction sd with
    | nil => rfl
    | cons kv rest ih => simp only [remap, List.map_cons, keysOf] at ih ⊢; simp [ih]

/-- Remapping preserves every tensor's shape. -/
theorem shapesOf_remap (sd : StateDict) (m : Option Device) :
    shapesOf (remap sd m) = shapesOf sd := by
  cases m with
  | none => rfl
  | some d =>
    induction sd with
    | nil => rfl
    | cons kv rest ih => simp only [remap, List.map_cons, shapesOf] at ih ⊢; simp [ih]

/-- Remapping preserves every tensor's values. -/
theorem valuesOf_remap (sd : StateDict) (m : Option Device) :
    valuesOf (remap sd m) = valuesOf sd := by
  cases m with
  | none => rfl
  | some d =>
    induction sd with
    | nil => rfl
    | cons kv rest ih => simp only [remap, List.map_cons, valuesOf] at ih ⊢; simp [ih]

/-- Remapping preserves the device-independent content. -/
theorem stripDevices_remap (sd : StateDict) (m : Option Device) :
    stripDevices (remap sd m) = stripDevices sd := by
  cases m with
  | none => rfl
  | some d =>
    induction sd with
    | nil => rfl
    | cons kv rest ih =>
      simp only [remap, List.map_cons, stripDevices] at ih ⊢; simp [ih]

/-- Remapping to `d` puts every tensor on `d`. -/
theorem devicesOf_remap_some (sd : StateDict) (d : Device) :
    devicesOf (remap sd (some d)) = List.replicate sd.length d := by
  induction sd with
  | nil => rfl
  | cons kv rest ih =>
    simp only [remap, List.map_cons, devicesOf] at ih ⊢
    simp [ih, List.replicate_succ]

/-- Remapping to the device the tensors already reside on changes nothing. -/
theorem remap_onDevice (sd : StateDict) (d : Device)
    (h : ∀ kv ∈ sd, kv.2.device = d) : remap sd (some d) = sd := by
  induction sd with
  | nil => rfl
  | cons kv rest ih =>
    obtain ⟨k, sh, da, dev⟩ := kv
    have h1 : dev = d := h (k, ⟨sh, da, dev⟩) (List.mem_cons_self _ _)
    subst h1
    have h2 : ∀ p ∈ rest, p.2.device = dev := fun p hp => h p (List.mem_cons_of_mem _ hp)
    simp only [remap, List.map_cons] at ih ⊢
    simp [ih h2]

/-- The remapped artifact depends only on the device-independent content of
the saved state, never on the device the data was saved from. -/
theorem remap_congr_strip (sd1 sd2 : StateDict) (d : Device)
    (h : stripDevices sd1 = stripDevices sd2) :
    remap sd1 (some d) = remap sd2 (some d) := by
  induction sd1 generalizing sd2 with
  | nil =>
    cases sd2 with
    | nil => rfl
    | cons kv rest => simp [stripDevices] at h
  | cons kv rest ih =>
    cases sd2 with
    | nil => simp [stripDevices] at h
    | cons kv2 rest2 =>
      obtain ⟨k1, sh1, da1, dev1⟩ := kv
      obtain ⟨k2, sh2, da2, dev2⟩ := kv2
      simp only [stripDevices, List.map_cons, List.cons.injEq, Prod.mk.injEq] at h
      obtain ⟨⟨hk, hsh, hda⟩, hrest⟩ := h
      subst hk; subst hsh; subst hda
      have := ih rest2 hrest
      simp only [remap, List.map_cons] at this ⊢
      simp [this]

/-- Remapping does not change whether a key is present. -/
theorem lookupSD_remap_isSome (sd : StateDict) (m : Option Device) (k : String) :
    (lookupSD (remap sd m) k).isSome = (lookupSD sd k).isSome := by
  cases m with
  | none => rfl
  | some d =>
    induction sd with
    | nil => rfl
    | cons kv rest ih =>
      simp only [remap, List.map_cons, lookupSD] at ih ⊢
      by_cases h : kv.1 = k
      · simp [h]
      · simp [h, ih]

/-- Remapping does not change whether the key set matches the model's. -/
theorem keysMatch_remap (sd : StateDict) (m : Option Device) :
    keysMatch (remap sd m) = keysMatch sd := by
  cases m with
  | none => rfl
  | some d =>
    have h2 : (remap sd (some d)).all (fun kv => netKeys.contains kv.1) =
        sd.all (fun kv => netKeys.contains kv.1) := by
      induction sd with
      | nil => rfl
      | cons kv rest ih =>
        simp only [remap, List.map_cons, List.all_cons] at ih ⊢
        rw [ih]
    simp only [keysMatch, h2, lookupSD_remap_isSome]

/-- A net's own state dict (remapped or not) always matches its key set. -/
theorem keysMatch_state_dict (n : Net) (m : Option Device) :
    keysMatch (remap n.state_dict m) = true := by
  cases m <;> rfl

/-- Reading back the path just written returns exactly the saved state. -/
theorem readFS_torchSave (fs : FS) (sd : StateDict) (path : String) :
    readFS (torchSave fs sd path) path = some sd := by
  simp [readFS, torchSave]

/-- A save/load round trip through a path returns the saved state, with the
device remapping applied. -/
theorem torchLoad_torchSave (fs : FS) (sd : StateDict) (path : String)
    (m : Option Device) :
    torchLoad (torchSave fs sd path) path m = .ok (remap sd m) := by
  simp [torchLoad, readFS_torchSave]

/-!
## The claims
-/

/-- C1: Round-trip — running the notebook's cell 7 (save the constructed
network's state to `"model.pt"`, reload the artifact into a freshly
constructed, identically-shaped `Net` with target device CPU) succeeds and
yields a parameter mapping identical in keys and values to the original: the
two instances' parameter tensors are element-wise equal. -/
theorem c1_roundtrip_cell7 (w : World) (init : String → List Int) :
    (runCell7 w init).2 = .ok () ∧
    ∃ m, (runCell7 w init).1.model = some m ∧
      keysOf m.state_dict = keysOf w.net.state_dict ∧
      valuesOf m.state_dict = valuesOf w.net.state_dict :=
  ⟨rfl, ⟨_, rfl, rfl, rfl⟩⟩

/-- C2: Invariant — a save/load round trip through any path preserves the
parameter mapping's key set, every tensor's shape and every tensor's values,
for every choice of `map_location`; with no `map_location` the state returns
unchanged, and with `map_location = d` only the device attribute changes, to
`d` on every tensor. -/
theorem c2_roundtrip_invariant (fs : FS) (sd : StateDict) (path : String)
    (mapLocation : Option Device) :
    torchLoad (torchSave fs sd path) path mapLocation = .ok (remap sd mapLocation) ∧
    keysOf (remap sd mapLocation) = keysOf sd ∧
    shapesOf (remap sd mapLocation) = shapesOf sd ∧
    valuesOf (remap sd mapLocation) = valuesOf sd ∧
    remap sd none = sd ∧
    ∀ d, devicesOf (remap sd (some d)) = List.replicate sd.length d :=
  ⟨torchLoad_torchSave fs sd path mapLocation, keysOf_remap sd mapLocation,
   shapesOf_remap sd mapLocation, valuesOf_remap sd mapLocation, rfl,
   fun d => devicesOf_remap_some sd d⟩

/-- C3: the load call accepts a target-device override (`map_location`); for
every persisted artifact, loading with override `d` remaps every tensor's
storage to `d` while preserving keys, shapes and values, and the result
depends only on the artifact's device-independent content — the caller never
has to inspect which device the data was saved from. -/
theorem c3_map_location_override (fs : FS) (sd : StateDict) (path : String)
    (d : Device) :
    torchLoad (torchSave fs sd path) path (some d) = .ok (remap sd (some d)) ∧
    devicesOf (remap sd (some d)) = List.replicate sd.length d ∧
    stripDevices (remap sd (some d)) = stripDevices sd ∧
    ∀ sd2, stripDevices sd2 = stripDevices sd →
      remap sd2 (some d) = remap sd (some d) :=
  ⟨torchLoad_torchSave fs sd path (some d), devicesOf_remap_some sd d,
   stripDevices_remap sd (some d), fun sd2 h => remap_congr_strip sd2 sd d h⟩

/-- Witness for C3 at a concrete input: a one-tensor state saved from
`cuda:0` and the same content saved from the CPU load to identical artifacts
under `map_location = cpu`. -/
theorem c3_map_location_override_witness :
    stripDevices [("w", (⟨[1], [3], Device.cpu⟩ : Tensor))] =
      stripDevices [("w", (⟨[1], [3], Device.cuda 0⟩ : Tensor))] ∧
    remap [("w", (⟨[1], [3], Device.cpu⟩ : Tensor))] (some Device.cpu) =
      remap [("w", (⟨[1], [3], Device.cuda 0⟩ : Tensor))] (some Device.cpu) :=
  ⟨by decide,
   (c3_map_location_override [] [("w", (⟨[1], [3], Device.cuda 0⟩ : Tensor))]
     "model.pt" Device.cpu).2.2.2 _ (by decide)⟩

/-- C4: saving a `DataParallel` wrapper by saving its single underlying
module's parameter state produces an artifact that is independent of the
wrapper's device ids, and that artifact loads successfully into a plain,
non-wrapped `Net` of the same topology under any `map_location`. -/
theorem c4_dataparallel_unwrap (dp1 dp2 : DataParallel) (fs : FS)
    (path : String) (init : String → List Int) (mapLocation : Option Device)
    (h : dp1.module = dp2.module) :
    saveDataParallel fs dp1 path = saveDataParallel fs dp2 path ∧
    isOk (loadInto (saveDataParallel fs dp1 path) path mapLocation
      (Net.new init)) = true := by
  constructor
  · simp [saveDataParallel, torchSave, h]
  · simp only [saveDataParallel, loadInto, torchLoad_torchSave,
      Net.load_state_dict, keysMatch_state_dict, if_true, isOk]

/-- Witness for C4 at concrete inputs: two wrappers over the same module with
one and with four device ids save the same artifact, and it loads into a
fresh plain `Net`. -/
theorem c4_dataparallel_unwrap_witness :
    saveDataParallel [] ⟨Net.new fun _ => [1], [0]⟩ "model.pt" =
      saveDataParallel [] ⟨Net.new fun _ => [1], [0, 1, 2, 3]⟩ "model.pt" ∧
    isOk (loadInto (saveDataParallel [] ⟨Net.new fun _ => [1], [0]⟩ "model.pt")
      "model.pt" none (Net.new fun _ => [0])) = true :=
  c4_dataparallel_unwrap ⟨Net.new fun _ => [1], [0]⟩
    ⟨Net.new fun _ => [1], [0, 1, 2, 3]⟩ [] "model.pt" (fun _ => [0]) none rfl

/-- C5: device invariance — for a state saved from device `dA`, loading with
target device `dB` yields a mapping numerically identical (same keys, shapes
and values) to the one obtained by saving and loading entirely on `dA`
(which returns the state exactly), differing only in device placement. -/
theorem c5_device_invariance (fs : FS) (sd : StateDict) (path : String)
    (dA dB : Device) (h : ∀ kv ∈ sd, kv.2.device = dA) :
    torchLoad (torchSave fs sd path) path (some dA) = .ok sd ∧
    torchLoad (torchSave fs sd path) path (some dB) = .ok (remap sd (some dB)) ∧
    stripDevices (remap sd (some dB)) = stripDevices sd ∧
    devicesOf (remap sd (some dB)) = List.replicate sd.length dB := by
  refine ⟨?_, torchLoad_torchSave fs sd path (some dB),
    stripDevices_remap sd (some dB), devicesOf_remap_some sd dB⟩
  rw [torchLoad_torchSave, remap_onDevice sd dA h]

/-- Witness for C5 at a concrete input: a one-tensor state on `cuda:0`,
loaded back with target `cuda:0` versus target CPU. -/
theorem c5_device_invariance_witness :
    (∀ kv ∈ ([("w", (⟨[1], [3], Device.cuda 0⟩ : Tensor))] : StateDict),
      kv.2.device = Device.cuda 0) ∧
    torchLoad (torchSave [] [("w", (⟨[1], [3], Device.cuda 0⟩ : Tensor))]
        "model.pt") "model.pt" (some (Device.cuda 0)) =
      .ok [("w", (⟨[1], [3], Device.cuda 0⟩ : Tensor))] :=
  ⟨by decide,
   (c5_device_invariance [] [("w", (⟨[1], [3], Device.cuda 0⟩ : Tensor))]
     "model.pt" (Device.cuda 0) Device.cpu (by decide)).1⟩

/-- C6 (code bug): invoking the defined `Net` on an input whose device
differs from the parameters' device does not fail with a "device mismatch"
error — under the notebook's global environment it fails with the undefined
name `F`, which is the error the forward pass raises before any device check;
only with `F` bound would the same invocation surface the device mismatch. -/
theorem c6_forward_mismatch_nameError :
    (Net.new fun _ => [1]).conv1_weight.device ≠
      (⟨[3, 32, 32], [5], Device.cuda 0⟩ : Tensor).device ∧
    Net.forward notebookGlobals (Net.new fun _ => [1])
      ⟨[3, 32, 32], [5], Device.cuda 0⟩ = .error (.nameError "F") ∧
    Net.forward ["torch", "nn", "optim", "F"] (Net.new fun _ => [1])
      ⟨[3, 32, 32], [5], Device.cuda 0⟩ = .error .deviceMismatch :=
  ⟨by decide, rfl, rfl⟩

/-- C7: the composite load call fails exactly when the path does not exist or
the persisted mapping's keys do not match the model's expected parameter
names; a missing path surfaces the file-not-found error and a key mismatch
surfaces the "shape/key mismatch" error directly to the caller, with no
recovery or retry. -/
theorem c7_load_failure_iff (fs : FS) (path : String)
    (mapLocation : Option Device) (n : Net) :
    (isOk (loadInto fs path mapLocation n) = false ↔
      readFS fs path = none ∨
        ∃ art, readFS fs path = some art ∧ keysMatch art = false) ∧
    (readFS fs path = none →
      loadInto fs path mapLocation n = .error .fileNotFound) ∧
    (∀ art, readFS fs path = some art → keysMatch art = false →
      loadInto fs path mapLocation n = .error .keyMismatch) := by
  cases hr : readFS fs path with
  | none => simp [loadInto, torchLoad, hr, isOk]
  | some art =>
    cases hk : keysMatch art with
    | true =>
      simp [loadInto, torchLoad, hr, hk, Net.load_state_dict,
        keysMatch_remap, isOk]
    | false =>
      simp [loadInto, torchLoad, hr, hk, Net.load_state_dict,
        keysMatch_remap, isOk]

/-- Witness for C7 at concrete inputs: loading from an empty filesystem fails
with file-not-found, and loading an artifact with a wrong key fails with the
key-mismatch error. -/
theorem c7_load_failure_iff_witness :
    loadInto [] "model.pt" none (Net.new fun _ => []) = .error .fileNotFound ∧
    loadInto [("model.pt", [("bogus", (⟨[1], [1], Device.cpu⟩ : Tensor))])]
      "model.pt" none (Net.new fun _ => []) = .error .keyMismatch :=
  ⟨(c7_load_failure_iff [] "model.pt" none (Net.new fun _ => [])).2.1 rfl,
   (c7_load_failure_iff [("model.pt", [("bogus", (⟨[1], [1], Device.cpu⟩ : Tensor))])]
     "model.pt" none (Net.new fun _ => [])).2.2 _ rfl (by decide)⟩

/-- C8: a device-transfer call on a model or a tensor succeeds exactly when
the requested device is available, and otherwise fails with the "device
unavailable" error, surfaced directly with no retry or fallback. -/
theorem c8_device_transfer_unavailable (n : Net) (t : Tensor) (d : Device)
    (avail : List Device) :
    (isOk (Net.to n d avail) = true ↔ d ∈ avail) ∧
    (d ∉ avail → Net.to n d avail = .error .deviceUnavailable) ∧
    (isOk (Tensor.toChecked t d avail) = true ↔ d ∈ avail) ∧
    (d ∉ avail → Tensor.toChecked t d avail = .error .deviceUnavailable) := by
  by_cases h : d ∈ avail <;> simp [Net.to, Tensor.toChecked, isOk, h]

/-- Witness for C8 at a concrete input: moving to `cuda:0` on a machine that
only has a CPU fails with the device-unavailable error. -/
theorem c8_device_transfer_unavailable_witness :
    Net.to (Net.new fun _ => []) (Device.cuda 0) [Device.cpu] =
      .error .deviceUnavailable ∧
    Tensor.toChecked ⟨[1], [0], Device.cpu⟩ (Device.cuda 0) [Device.cpu] =
      .error .deviceUnavailable :=
  ⟨(c8_device_transfer_unavailable (Net.new fun _ => []) ⟨[1], [0], Device.cpu⟩
      (Device.cuda 0) [Device.cpu]).2.1 (by decide),
   (c8_device_transfer_unavailable (Net.new fun _ => []) ⟨[1], [0], Device.cpu⟩
      (Device.cuda 0) [Device.cpu]).2.2.2 (by decide)⟩

/-- C9: for every network instance and every input tensor, invoking the
notebook's forward computation under the notebook's global environment raises
the undefined-name error for `F`: the import cell binds only `torch`, `nn`
and `optim`, so the forward pass can never complete. -/
theorem c9_forward_always_nameError (n : Net) (x : Tensor) :
    notebookGlobals.contains "F" = false ∧
    Net.forward notebookGlobals n x = .error (.nameError "F") :=
  ⟨rfl, rfl⟩

/-- C10: frame property of cell 7 — the saved network is left completely
unchanged by the save and the subsequent load: the artifact written to
`"model.pt"` equals the original state exactly, and the load writes only
into the freshly constructed target instance, whose loaded value the model
slot receives. -/
theorem c10_save_load_frame (w : World) (init : String → List Int) :
    (runCell7 w init).1.net = w.net ∧
    readFS (runCell7 w init).1.fs "model.pt" = some w.net.state_dict ∧
    ∃ m, loadInto (torchSave w.fs w.net.state_dict "model.pt") "model.pt"
        (some Device.cpu) (Net.new init) = .ok m ∧
      (runCell7 w init).1.model = some m :=
  ⟨rfl, rfl, ⟨_, rfl, rfl⟩⟩

end SaveLoad
